import Mathlib

/-! Formal model of StratoVirt's SCSI command engine (virtio/src/scsi/bus.rs),
    of the x86_64 standard-VM RAM layout (machine/src/standard_vm/x86_64/mod.rs),
    and of the VM lifecycle state machine, together with theorems checking the
    repository's specification against this model.  Machine integers are
    modelled as Nat/Int with explicit reductions mod 2^w at the points where
    the Rust source casts (`as u8`, `as u32`, `as i32`, `as i64`) or where
    release-mode arithmetic can wrap. -/

/-! ## Byte-level helpers

    A CDB is modelled as a total map from byte index to byte value; every
    access goes through `cb`, which reduces mod 256 exactly as a `u8` read.
    `read_u16`/`read_u32`/`read_u64` are `byteorder::BigEndian` reads. -/

abbrev Cdb := Nat → Nat

def cb (cdb : Cdb) (i : Nat) : Nat := cdb i % 256

def read_u16 (cdb : Cdb) (i : Nat) : Nat := cb cdb i * 256 + cb cdb (i + 1)

def read_u32 (cdb : Cdb) (i : Nat) : Nat :=
  ((cb cdb i * 256 + cb cdb (i + 1)) * 256 + cb cdb (i + 2)) * 256 + cb cdb (i + 3)

def read_u64 (cdb : Cdb) (i : Nat) : Nat := read_u32 cdb i * 2 ^ 32 + read_u32 cdb (i + 4)

/-- Reinterpret an unsigned 32-bit value as Rust's `i32` (`as i32`). -/
def toI32 (n : Nat) : Int :=
  if n % 2 ^ 32 < 2 ^ 31 then (n % 2 ^ 32 : Nat) else (n % 2 ^ 32 : Nat) - 2 ^ 32

/-- Reinterpret an unsigned 64-bit value as Rust's `i64` (`as i64`). -/
def toI64 (n : Nat) : Int :=
  if n % 2 ^ 64 < 2 ^ 63 then (n % 2 ^ 64 : Nat) else (n % 2 ^ 64 : Nat) - 2 ^ 64

/-- Wrapping `i32` arithmetic (release-mode overflow semantics). -/
def wrap32 (x : Int) : Int := (x + 2 ^ 31) % 2 ^ 32 - 2 ^ 31

/-- Wrapping `u8` subtraction, for Rust's `a - b` on `u8` operands. -/
def u8sub (a b : Nat) : Nat := (a % 256 + 256 - b % 256) % 256

/-- Big-endian encoding of a `u32` value (`BigEndian::write_u32`). -/
def be32 (v : Nat) : List Nat :=
  [v / 2 ^ 24 % 256, v / 2 ^ 16 % 256, v / 2 ^ 8 % 256, v % 256]

/-- Big-endian encoding of a `u64` value (`BigEndian::write_u64`). -/
def be64 (v : Nat) : List Nat := be32 (v / 2 ^ 32 % 2 ^ 32) ++ be32 (v % 2 ^ 32)

/-! ## SCSI operation codes (virtio/src/scsi/bus.rs) -/

def TEST_UNIT_READY : Nat := 0x00
def REWIND : Nat := 0x01
def REQUEST_SENSE : Nat := 0x03
def FORMAT_UNIT : Nat := 0x04
def READ_BLOCK_LIMITS : Nat := 0x05
def READ_6 : Nat := 0x08
def WRITE_6 : Nat := 0x0a
def SET_CAPACITY : Nat := 0x0b
def READ_REVERSE : Nat := 0x0f
def WRITE_FILEMARKS : Nat := 0x10
def SPACE : Nat := 0x11
def INQUIRY : Nat := 0x12
def MODE_SELECT : Nat := 0x15
def RESERVE : Nat := 0x16
def RELEASE : Nat := 0x17
def COPY : Nat := 0x18
def ERASE : Nat := 0x19
def MODE_SENSE : Nat := 0x1a
def START_STOP : Nat := 0x1b
def RECEIVE_DIAGNOSTIC : Nat := 0x1c
def SEND_DIAGNOSTIC : Nat := 0x1d
def ALLOW_MEDIUM_REMOVAL : Nat := 0x1e
def SET_WINDOW : Nat := 0x24
def READ_CAPACITY_10 : Nat := 0x25
def READ_10 : Nat := 0x28
def WRITE_10 : Nat := 0x2a
def SEEK_10 : Nat := 0x2b
def WRITE_VERIFY_10 : Nat := 0x2e
def VERIFY_10 : Nat := 0x2f
def SEARCH_HIGH : Nat := 0x30
def SEARCH_EQUAL : Nat := 0x31
def SEARCH_LOW : Nat := 0x32
def SET_LIMITS : Nat := 0x33
def PRE_FETCH : Nat := 0x34
def SYNCHRONIZE_CACHE : Nat := 0x35
def LOCK_UNLOCK_CACHE : Nat := 0x36
def MEDIUM_SCAN : Nat := 0x38
def COMPARE : Nat := 0x39
def COPY_VERIFY : Nat := 0x3a
def WRITE_BUFFER : Nat := 0x3b
def READ_BUFFER : Nat := 0x3c
def UPDATE_BLOCK : Nat := 0x3d
def WRITE_LONG_10 : Nat := 0x3f
def CHANGE_DEFINITION : Nat := 0x40
def WRITE_SAME_10 : Nat := 0x41
def UNMAP : Nat := 0x42
def LOG_SELECT : Nat := 0x4c
def RESERVE_TRACK : Nat := 0x53
def MODE_SELECT_10 : Nat := 0x55
def SEND_CUE_SHEET : Nat := 0x5d
def PERSISTENT_RESERVE_OUT : Nat := 0x5f
def MODE_SENSE_10 : Nat := 0x5a
def WRITE_FILEMARKS_16 : Nat := 0x80
def ALLOW_OVERWRITE : Nat := 0x82
def ATA_PASSTHROUGH_16 : Nat := 0x85
def READ_16 : Nat := 0x88
def WRITE_16 : Nat := 0x8a
def WRITE_VERIFY_16 : Nat := 0x8e
def VERIFY_16 : Nat := 0x8f
def PRE_FETCH_16 : Nat := 0x90
def SYNCHRONIZE_CACHE_16 : Nat := 0x91
def LOCATE_16 : Nat := 0x92
def WRITE_SAME_16 : Nat := 0x93
def SERVICE_ACTION_IN_16 : Nat := 0x9e
def REPORT_LUNS : Nat := 0xa0
def ATA_PASSTHROUGH_12 : Nat := 0xa1
def MAINTENANCE_IN : Nat := 0xa3
def MAINTENANCE_OUT : Nat := 0xa4
def SET_READ_AHEAD : Nat := 0xa7
def READ_12 : Nat := 0xa8
def WRITE_12 : Nat := 0xaa
def ERASE_12 : Nat := 0xac
def READ_DVD_STRUCTURE : Nat := 0xad
def WRITE_VERIFY_12 : Nat := 0xae
def VERIFY_12 : Nat := 0xaf
def SEARCH_HIGH_12 : Nat := 0xb0
def SEARCH_EQUAL_12 : Nat := 0xb1
def SEARCH_LOW_12 : Nat := 0xb2
def SEND_VOLUME_TAG : Nat := 0xb6
def SET_CD_SPEED : Nat := 0xbb
def MECHANISM_STATUS : Nat := 0xbd
def READ_CD : Nat := 0xbe
def SEND_DVD_STRUCTURE : Nat := 0xbf
def REASSIGN_BLOCKS : Nat := 0x07
def SCAN : Nat := 0x1b
def SUBCODE_READ_CAPACITY_16 : Nat := 0x10

/-- SAM status GOOD. -/
def GOOD : Nat := 0x00

/-- SAM status CHECK CONDITION. -/
def CHECK_CONDITION : Nat := 0x02

def SCSI_DEFAULT_BLOCK_SIZE : Int := 512

/-! ## CDB parsing (scsi_cdb_length / scsi_cdb_xfer / scsi_cdb_lba) -/

/-- `scsi_cdb_length`: CDB byte count from the group code in `cdb[0] >> 5`.
    Groups 0 to 6, 1 and 2 to 10, 4 to 16, 5 to 12; anything else is -1. -/
def scsi_cdb_length (cdb : Cdb) : Int :=
  let g := cb cdb 0 >>> 5
  if g = 0 then 6
  else if g = 1 ∨ g = 2 then 10
  else if g = 4 then 16
  else if g = 5 then 12
  else -1

/-- `scsi_cdb_xfer`: the group-code base transfer length followed by the
    opcode-specific overrides, exactly in the order of the Rust `match`.
    The `i32` multiplications by the block size use release-mode wrapping. -/
def scsi_cdb_xfer (cdb : Cdb) : Int :=
  let op := cb cdb 0
  let g := op >>> 5
  let xfer : Int :=
    if g = 0 then (cb cdb 4 : Nat)
    else if g = 1 ∨ g = 2 then (read_u16 cdb 7 : Nat)
    else if g = 4 then toI32 (read_u32 cdb 10)
    else if g = 5 then toI32 (read_u32 cdb 6)
    else -1
  if op = TEST_UNIT_READY ∨ op = REWIND ∨ op = START_STOP ∨ op = SET_CAPACITY ∨
     op = WRITE_FILEMARKS ∨ op = WRITE_FILEMARKS_16 ∨ op = SPACE ∨ op = RESERVE ∨
     op = RELEASE ∨ op = ERASE ∨ op = ALLOW_MEDIUM_REMOVAL ∨ op = SEEK_10 ∨
     op = SYNCHRONIZE_CACHE ∨ op = SYNCHRONIZE_CACHE_16 ∨ op = LOCATE_16 ∨
     op = LOCK_UNLOCK_CACHE ∨ op = SET_CD_SPEED ∨ op = SET_LIMITS ∨
     op = WRITE_LONG_10 ∨ op = UPDATE_BLOCK ∨ op = RESERVE_TRACK ∨
     op = SET_READ_AHEAD ∨ op = PRE_FETCH ∨ op = PRE_FETCH_16 ∨
     op = ALLOW_OVERWRITE then 0
  else if op = VERIFY_10 ∨ op = VERIFY_12 ∨ op = VERIFY_16 then
    wrap32 ((if cb cdb 1 &&& 2 = 0 then 0
             else if cb cdb 1 &&& 4 ≠ 0 then 1
             else xfer) * SCSI_DEFAULT_BLOCK_SIZE)
  else if op = WRITE_SAME_10 ∨ op = WRITE_SAME_16 then
    (if cb cdb 1 &&& 1 ≠ 0 then 0 else SCSI_DEFAULT_BLOCK_SIZE)
  else if op = READ_CAPACITY_10 then 8
  else if op = READ_BLOCK_LIMITS then 6
  else if op = SEND_VOLUME_TAG then (cb cdb 9 ||| cb cdb 8 <<< 8 : Nat)
  else if op = WRITE_6 ∨ op = READ_6 ∨ op = READ_REVERSE then
    -- length 0 means 256 blocks.
    (if xfer = 0 then 256 * SCSI_DEFAULT_BLOCK_SIZE else xfer)
  else if op = WRITE_10 ∨ op = WRITE_VERIFY_10 ∨ op = WRITE_12 ∨
          op = WRITE_VERIFY_12 ∨ op = WRITE_16 ∨ op = WRITE_VERIFY_16 ∨
          op = READ_10 ∨ op = READ_12 ∨ op = READ_16 then
    wrap32 (xfer * SCSI_DEFAULT_BLOCK_SIZE)
  else if op = FORMAT_UNIT then
    (if cb cdb 1 &&& 16 = 0 then 0 else if cb cdb 1 &&& 32 = 0 then 4 else 8)
  else if op = INQUIRY ∨ op = RECEIVE_DIAGNOSTIC ∨ op = SEND_DIAGNOSTIC then
    (cb cdb 4 ||| cb cdb 3 <<< 8 : Nat)
  else if op = READ_CD ∨ op = READ_BUFFER ∨ op = WRITE_BUFFER ∨
          op = SEND_CUE_SHEET then
    (cb cdb 8 ||| cb cdb 7 <<< 8 ||| cb cdb 6 <<< 16 : Nat)
  else if op = PERSISTENT_RESERVE_OUT then toI32 (read_u32 cdb 5)
  else
    -- ERASE_12, MECHANISM_STATUS, READ_DVD_STRUCTURE, SEND_DVD_STRUCTURE,
    -- MAINTENANCE_OUT, MAINTENANCE_IN, ATA_PASSTHROUGH_12, ATA_PASSTHROUGH_16
    -- and the wildcard arm leave the group-code base value unchanged.
    xfer

/-- `scsi_cdb_lba`: logical block address from the group code. -/
def scsi_cdb_lba (cdb : Cdb) : Int :=
  let g := cb cdb 0 >>> 5
  if g = 0 then (read_u32 cdb 0 &&& 0x1fffff : Nat)
  else if g = 1 ∨ g = 2 ∨ g = 5 then (read_u32 cdb 2 : Nat)
  else if g = 4 then toI64 (read_u64 cdb 2)
  else -1

inductive ScsiXferMode where
  | ScsiXferNone
  | ScsiXferFromDev
  | ScsiXferToDev
deriving DecidableEq

/-- `scsi_cdb_xfer_mode`: transfer direction table. -/
def scsi_cdb_xfer_mode (cdb : Cdb) : ScsiXferMode :=
  let op := cb cdb 0
  if op = WRITE_6 ∨ op = WRITE_10 ∨ op = WRITE_VERIFY_10 ∨ op = WRITE_12 ∨
     op = WRITE_VERIFY_12 ∨ op = WRITE_16 ∨ op = WRITE_VERIFY_16 ∨
     op = VERIFY_10 ∨ op = VERIFY_12 ∨ op = VERIFY_16 ∨ op = COPY ∨
     op = COPY_VERIFY ∨ op = COMPARE ∨ op = CHANGE_DEFINITION ∨
     op = LOG_SELECT ∨ op = MODE_SELECT ∨ op = MODE_SELECT_10 ∨
     op = SEND_DIAGNOSTIC ∨ op = WRITE_BUFFER ∨ op = FORMAT_UNIT ∨
     op = REASSIGN_BLOCKS ∨ op = SEARCH_EQUAL ∨ op = SEARCH_HIGH ∨
     op = SEARCH_LOW ∨ op = UPDATE_BLOCK ∨ op = WRITE_LONG_10 ∨
     op = WRITE_SAME_10 ∨ op = WRITE_SAME_16 ∨ op = UNMAP ∨
     op = SEARCH_HIGH_12 ∨ op = SEARCH_EQUAL_12 ∨ op = SEARCH_LOW_12 ∨
     op = MEDIUM_SCAN ∨ op = SEND_VOLUME_TAG ∨ op = SEND_CUE_SHEET ∨
     op = SEND_DVD_STRUCTURE ∨ op = PERSISTENT_RESERVE_OUT ∨
     op = MAINTENANCE_OUT ∨ op = SET_WINDOW ∨ op = SCAN then
    .ScsiXferToDev
  else if op = ATA_PASSTHROUGH_12 ∨ op = ATA_PASSTHROUGH_16 then
    (if cb cdb 2 &&& 0x8 = 0 then .ScsiXferToDev else .ScsiXferFromDev)
  else .ScsiXferFromDev

/-- The parsed command (`ScsiCommand` in the source, without the raw 16-byte
    copy duplicated: `buf` is the CDB itself). -/
structure ScsiCommand where
  buf : Cdb
  command : Nat
  len : Nat
  xfer : Nat
  lba : Nat
  mode : ScsiXferMode

/-- `ScsiBus::scsi_bus_parse_req_cdb`: reject any CDB whose length, transfer
    length or LBA comes out negative, else package the command. -/
def scsi_bus_parse_req_cdb (cdb : Cdb) : Option ScsiCommand :=
  let len := scsi_cdb_length cdb
  if len < 0 then none
  else
    let xfer := scsi_cdb_xfer cdb
    if xfer < 0 then none
    else
      let lba := scsi_cdb_lba cdb
      if lba < 0 then none
      else
        some { buf := cdb, command := cb cdb 0, len := len.toNat,
               xfer := xfer.toNat, lba := lba.toNat, mode := scsi_cdb_xfer_mode cdb }

/-- Build a CDB from an explicit byte list (missing bytes read as zero). -/
def cdbOf (l : List Nat) : Cdb := fun i => l.getD i 0

example : scsi_cdb_xfer (cdbOf [0x08, 0, 0, 0, 1]) = 1 := by decide
example : scsi_cdb_xfer (cdbOf [0x08, 0, 0, 0, 0]) = 256 * 512 := by decide
example : scsi_cdb_xfer (cdbOf [0x28, 0, 0, 0, 0, 0, 0, 0, 3]) = 3 * 512 := by decide
example : scsi_cdb_xfer (cdbOf [0x81, 0, 0, 0, 0, 0, 0, 0, 0, 0, 0xff, 0xff, 0xff, 0xff]) = -1 := by
  decide
example : scsi_cdb_length (cdbOf [0x61]) = -1 := by decide

/-! ## SCSI device and bus model

    `ScsiDevice` carries exactly the fields of `ScsiDisk::ScsiDevice` that the
    emulation reads: scsi type, state strings (as byte lists), feature bits,
    sector count, the `(target, lun)` config and whether a backing image is
    attached.  A bus is the list of devices attached to the controller (the
    source's `HashMap` iterated in an arbitrary but fixed order). -/

/-- Modelled from the spec: `SCSI_TYPE_DISK` lives in ScsiDisk.rs, which is not
    part of the analysed sources; the spec fixes `DISK = 0x00`. -/
def SCSI_TYPE_DISK : Nat := 0x00

/-- Modelled from the spec: `SCSI_TYPE_ROM` lives in ScsiDisk.rs; the spec
    fixes `ROM = 0x05`. -/
def SCSI_TYPE_ROM : Nat := 0x05

/-- Modelled from the spec: `DEFAULT_SECTOR_SIZE` lives in ScsiDisk.rs; the
    spec fixes it at 512. -/
def DEFAULT_SECTOR_SIZE : Nat := 512

/-- Modelled from the spec: `SCSI_DISK_F_REMOVABLE` lives in ScsiDisk.rs; the
    spec only names the feature bit, modelled here as bit index 0. -/
def SCSI_DISK_F_REMOVABLE : Nat := 0

/-- Modelled from the spec: `SCSI_DISK_F_DPOFUA` lives in ScsiDisk.rs; the
    spec only names the feature bit, modelled here as bit index 1. -/
def SCSI_DISK_F_DPOFUA : Nat := 1

def SCSI_MAX_INQUIRY_LEN : Nat := 256
def SCSI_INQUIRY_PRODUCT_MAX_LEN : Nat := 16
def SCSI_INQUIRY_VENDOR_MAX_LEN : Nat := 8
def SCSI_INQUIRY_VERSION_MAX_LEN : Nat := 4
def SCSI_INQUIRY_VPD_SERIAL_NUMBER_MAX_LEN : Nat := 32
def SCSI_TARGET_INQUIRY_LEN : Nat := 36
def TYPE_UNKNOWN : Nat := 0x1f
def TYPE_INACTIVE : Nat := 0x20
def TYPE_NO_LUN : Nat := 0x7f
def MODE_PAGE_R_W_ERROR : Nat := 0x01
def MODE_PAGE_CACHING : Nat := 0x08

structure ScsiSense where
  key : Nat
  asc : Nat
  ascq : Nat
deriving DecidableEq

def SCSI_SENSE_NO_SENSE : ScsiSense := ⟨0x00, 0x00, 0x00⟩
def SCSI_SENSE_INVALID_OPCODE : ScsiSense := ⟨0x05, 0x20, 0x00⟩
def SCSI_SENSE_INVALID_FIELD : ScsiSense := ⟨0x05, 0x24, 0x00⟩
def SCSI_SENSE_LUN_NOT_SUPPORTED : ScsiSense := ⟨0x05, 0x25, 0x00⟩
def SCSI_SENSE_SAVING_PARAMS_NOT_SUPPORTED : ScsiSense := ⟨0x05, 0x39, 0x00⟩

structure ScsiDevConfig where
  target : Nat
  lun : Nat
deriving DecidableEq

structure ScsiDevState where
  serial : List Nat
  device_id : List Nat
  product : List Nat
  vendor : List Nat
  version : List Nat
  features : Nat
deriving DecidableEq

structure ScsiDevice where
  scsi_type : Nat
  state : ScsiDevState
  disk_sectors : Nat
  config : ScsiDevConfig
  has_disk_image : Bool
deriving DecidableEq

/-- Outcome of one emulation routine: `ok` is the source's `Ok(outbuf)`,
    `fail` is `bail!`, and `crash` is an out-of-bounds slice access (a Rust
    panic, so no SCSI response is produced at all). -/
inductive EmuOut where
  | ok (buf : List Nat)
  | fail
  | crash
deriving DecidableEq

/-- A checked single-byte store `buf[i] = v`; `none` is the Rust index panic. -/
def setByte (buf : List Nat) (i v : Nat) : Option (List Nat) :=
  if i < buf.length then some (buf.set i v) else none

/-- A checked `buf[start..start+len].copy_from_slice(src)`: panics when the
    range falls outside the buffer or `src.length ≠ len`. -/
def copyRange (buf : List Nat) (start len : Nat) (src : List Nat) : Option (List Nat) :=
  if start + len ≤ buf.length ∧ src.length = len then
    some (buf.take start ++ src ++ buf.drop (start + len))
  else none

/-! ## Emulation routines -/

/-- `scsi_command_emulate_vpd_page`: the VPD (Vital Product Data) pages. -/
def scsi_command_emulate_vpd_page (cmd : ScsiCommand) (dev : ScsiDevice) : EmuOut :=
  let page_code := cb cmd.buf 2
  let outbuf : List Nat := [dev.scsi_type % 256 &&& 0x1f, page_code, 0, 0]
  let step : Option (List Nat × Nat) :=
    if page_code = 0x00 then
      -- Supported VPD pages: 0x00, optional 0x80, 0x83, and for disks 0xb0-0xb2.
      let outbuf := outbuf ++ [0] ++
        (if dev.state.serial.length ≠ 0 then [0x80] else []) ++ [0x83] ++
        (if dev.scsi_type = SCSI_TYPE_DISK then [0xb0, 0xb1, 0xb2] else [])
      some (outbuf, outbuf.length)
    else if page_code = 0x80 then
      -- Unit serial number, truncated to 32 bytes.
      if dev.state.serial.length = 0 then none
      else
        let l := min SCSI_INQUIRY_VPD_SERIAL_NUMBER_MAX_LEN dev.state.serial.length
        let outbuf := outbuf ++ dev.state.serial.take l
        some (outbuf, outbuf.length)
    else if page_code = 0x83 then
      -- Device identification; `device_id.len() as u8` truncates mod 256.
      let len := min (dev.state.device_id.length % 256) (255 - 8)
      let outbuf := outbuf ++
        (if 0 < len then [0x2, 0, 0, len] ++ dev.state.device_id.take len else [])
      some (outbuf, outbuf.length)
    else if page_code = 0xb0 then
      -- Block limits (disk only); the buffer is resized to 64 bytes and the
      -- fields below are written at offsets 4, 8, 20, 24, 28 and 36.
      if dev.scsi_type = SCSI_TYPE_ROM then none
      else
        let max_xfer_length := (2 ^ 32 - 1) / 512
        let outbuf := outbuf ++ [1, 0, 0, 0] ++ be32 max_xfer_length ++
          List.replicate 8 0 ++ be32 (2 ^ 30 / 512) ++ be32 255 ++
          be32 (2 ^ 12 / 512) ++ List.replicate 4 0 ++ be64 max_xfer_length ++
          List.replicate 20 0
        some (outbuf, outbuf.length)
    else if page_code = 0xb1 then
      -- Block device characteristics: five zero payload bytes are appended,
      -- but `buflen` is set to 0x40 without resizing the buffer.
      some (outbuf ++ [0, 0, 0, 0, 0], 0x40)
    else if page_code = 0xb2 then
      -- Logical block provisioning.
      some (outbuf ++ [0, 0xe0, 1, 0], 8)
    else none
  match step with
  | none => .fail
  | some (outbuf, buflen) => .ok (outbuf.set 3 (u8sub buflen 4))

/-- `scsi_command_emulate_target_inquiry`: INQUIRY answered by the target
    itself when the addressed LUN does not exist. -/
def scsi_command_emulate_target_inquiry (lun : Nat) (cmd : ScsiCommand) : EmuOut :=
  if cb cmd.buf 1 = 0x1 then
    let page_code := cb cmd.buf 2
    if page_code = 0x00 then
      -- Only the page list page is supported: [0, page, 0, 1] plus entry 0x00.
      .ok [0, page_code, 0, 0x1, 0x00]
    else .fail
  else if cb cmd.buf 2 ≠ 0 then .fail
  else
    let len := min cmd.xfer SCSI_TARGET_INQUIRY_LEN
    if lun ≠ 0 then
      .ok ([TYPE_NO_LUN] ++ List.replicate 35 0)
    else
      .ok ([TYPE_UNKNOWN ||| TYPE_INACTIVE, 0, 5, 0x12, u8sub len 5, 0, 0, 0x12] ++
           List.replicate 28 0)

/-- The standard INQUIRY body with every slice access checked: the source
    sizes `outbuf` as `min(xfer, 256)` yet writes fixed offsets 0..36. -/
def inquiry_std (cmd : ScsiCommand) (dev : ScsiDevice) : Option (List Nat) := do
  let buflen := min cmd.xfer SCSI_MAX_INQUIRY_LEN
  let outbuf := List.replicate buflen 0
  let outbuf ← setByte outbuf 0 (dev.scsi_type % 256 &&& 0x1f)
  let outbuf ← setByte outbuf 1
    (if dev.state.features &&& SCSI_DISK_F_REMOVABLE = 1 then 0x80 else 0)
  let product_len := min dev.state.product.length SCSI_INQUIRY_PRODUCT_MAX_LEN
  let vendor_len := min dev.state.vendor.length SCSI_INQUIRY_VENDOR_MAX_LEN
  let vension_len := min dev.state.version.length SCSI_INQUIRY_VERSION_MAX_LEN
  let outbuf ← copyRange outbuf 16 product_len dev.state.product
  let outbuf ← copyRange outbuf 8 vendor_len dev.state.vendor
  let outbuf ← copyRange outbuf 32 vension_len dev.state.version
  let outbuf ← setByte outbuf 2 5
  let outbuf ← setByte outbuf 3 (2 ||| 0x10)
  let outbuf ← setByte outbuf 4 (if 36 < buflen then (buflen - 5) % 256 else 36 - 5)
  let outbuf ← setByte outbuf 7 0x12
  pure outbuf

/-- `scsi_command_emulate_inquiry`. -/
def scsi_command_emulate_inquiry (cmd : ScsiCommand) (dev : ScsiDevice) : EmuOut :=
  if cb cmd.buf 1 = 0x1 then scsi_command_emulate_vpd_page cmd dev
  else if cb cmd.buf 2 ≠ 0 then .fail
  else
    match inquiry_std cmd dev with
    | some outbuf => .ok outbuf
    | none => .crash

/-- `scsi_command_emulate_read_capacity_10`: note that the source truncates
    `disk_sectors` with `as u32` before a vacuous `min` with `u32::MAX`. -/
def scsi_command_emulate_read_capacity_10 (cmd : ScsiCommand) (dev : ScsiDevice) : EmuOut :=
  if cb cmd.buf 8 &&& 1 = 0 ∧ cmd.lba ≠ 0 then .fail
  else
    let nb_sectors := min (dev.disk_sectors % 2 ^ 32) (2 ^ 32 - 1)
    .ok (be32 nb_sectors ++ be32 DEFAULT_SECTOR_SIZE)

/-- `scsi_command_emulate_mode_sense_page`: the two supported mode pages,
    appended to `outbuf` (resize + three indexed stores in the source). -/
def scsi_command_emulate_mode_sense_page (page page_control : Nat)
    (outbuf : List Nat) : EmuOut :=
  if page = MODE_PAGE_CACHING then
    .ok (outbuf ++ [page, 18, 0x4] ++ List.replicate 17 0)
  else if page = MODE_PAGE_R_W_ERROR then
    .ok (outbuf ++ [page, 10, if page_control ≠ 1 then 0x80 else 0] ++
         List.replicate 9 0)
  else .fail

/-- `scsi_command_emulate_mode_sense` for MODE_SENSE and MODE_SENSE_10. -/
def scsi_command_emulate_mode_sense (cmd : ScsiCommand) (dev : ScsiDevice) : EmuOut :=
  let dbd := cb cmd.buf 1 &&& 0x8 ≠ 0
  let page_code := cb cmd.buf 2 &&& 0x3f
  let page_control := (cb cmd.buf 2 &&& 0xc0) >>> 6
  let nb_sectors := dev.disk_sectors
  let dev_specific_parameter :=
    if dev.scsi_type = SCSI_TYPE_DISK then
      (if dev.state.features &&& (1 <<< SCSI_DISK_F_DPOFUA) ≠ 0 then 0x10 else 0)
    else 0
  let dbd := if dev.scsi_type = SCSI_TYPE_DISK then dbd else true
  let outbuf : List Nat :=
    if cmd.command = MODE_SENSE then [0, 0, dev_specific_parameter, 0]
    else [0, 0, 0, dev_specific_parameter, 0, 0, 0, 0]
  let outbuf :=
    if ¬dbd ∧ 0 < nb_sectors then
      (if cmd.command = MODE_SENSE then outbuf.set 3 8 else outbuf.set 7 8) ++
        be32 (nb_sectors % 2 ^ 32 &&& 0xffffff) ++ be32 DEFAULT_SECTOR_SIZE
    else outbuf
  if page_control = 3 then .fail
  else
    let paged : EmuOut :=
      if page_code = 0x3f then
        -- Return all pages: iterate 0..0x3f, ignoring unsupported codes.
        .ok ((List.range 0x3f).foldl
          (fun b pg =>
            match scsi_command_emulate_mode_sense_page pg page_control b with
            | .ok b2 => b2
            | _ => b) outbuf)
      else scsi_command_emulate_mode_sense_page page_code page_control outbuf
    match paged with
    | .ok outbuf =>
        let buflen := outbuf.length
        if cmd.command = MODE_SENSE then
          .ok (outbuf.set 0 ((buflen - 1) % 256))
        else
          .ok ((outbuf.set 0 ((buflen - 2) >>> 8 &&& 0xff)).set 1 ((buflen - 2) &&& 0xff))
    | .fail => .fail
    | .crash => .crash

/-- One iteration of the `REPORT LUNS` device loop: devices on another target
    are skipped; a matching device contributes a 2-byte encoded LUN followed
    by six bytes of zero padding (the `resize(len + 8, 0)`). -/
def report_luns_step (target : Nat) (outbuf : List Nat) (d : ScsiDevice) : List Nat :=
  if d.config.target ≠ target then outbuf
  else
    outbuf ++
      (if d.config.lun < 256 then [0, d.config.lun % 256]
       else [0x40 ||| (d.config.lun >>> 8 &&& 0xff), d.config.lun &&& 0xff]) ++
      List.replicate 6 0

/-- `scsi_command_emulate_report_luns`: 8-byte header, one entry per device on
    the addressed target, and the list length patched big-endian at bytes 0-3. -/
def scsi_command_emulate_report_luns (cmd : ScsiCommand) (dev : ScsiDevice)
    (bus : List ScsiDevice) : EmuOut :=
  let target := dev.config.target
  if cmd.xfer < 16 then .fail
  else if 2 < cb cmd.buf 2 then .fail
  else
    let outbuf := bus.foldl (report_luns_step target) (List.replicate 8 0)
    let len := outbuf.length - 8
    .ok (be32 len ++ outbuf.drop 4)

/-- `scsi_command_emulate_service_action_in_16` (READ CAPACITY 16). -/
def scsi_command_emulate_service_action_in_16 (cmd : ScsiCommand)
    (dev : ScsiDevice) : EmuOut :=
  if cb cmd.buf 1 &&& 0x1f = SUBCODE_READ_CAPACITY_16 then
    .ok (be64 (dev.disk_sectors % 2 ^ 64) ++ be32 DEFAULT_SECTOR_SIZE ++
         List.replicate 20 0)
  else .fail

/-! ## Request completion (`ScsiRequest::emulate_execute`) -/

/-- The guest-visible outcome assembled by `cmd_complete`: SAM status, the
    sense installed by `set_scsi_sense`, and the response payload. -/
structure Completion where
  status : Nat
  sense : Option ScsiSense
  outbuf : List Nat
deriving DecidableEq

/-- Folding an emulation result into a completion, as the `match result` at
    the end of `emulate_execute`: success completes GOOD with the sense chosen
    by the command branch; failure completes CHECK_CONDITION with
    INVALID_OPCODE when the branch flagged an unsupported command and
    INVALID_FIELD otherwise.  A `crash` produces no completion. -/
def completeResult (r : EmuOut) (sense : Option ScsiSense)
    (not_supported_flag : Bool) : Option Completion :=
  match r with
  | .ok outbuf => some ⟨GOOD, sense, outbuf⟩
  | .fail =>
      if not_supported_flag then
        some ⟨CHECK_CONDITION, some SCSI_SENSE_INVALID_OPCODE, []⟩
      else
        some ⟨CHECK_CONDITION, some SCSI_SENSE_INVALID_FIELD, []⟩
  | .crash => none

/-- `ScsiRequest::emulate_execute`: target-request dispatch when the resolved
    lun differs from the requested one (or for REPORT LUNS), ordinary
    emulation dispatch otherwise. -/
def emulate_execute (cmd : ScsiCommand) (dev : ScsiDevice) (bus : List ScsiDevice)
    (req_lun_id found_lun_id : Nat) : Option Completion :=
  if req_lun_id ≠ found_lun_id ∨ cmd.command = REPORT_LUNS then
    if cmd.command = REPORT_LUNS then
      completeResult (scsi_command_emulate_report_luns cmd dev bus) none false
    else if cmd.command = INQUIRY then
      completeResult (scsi_command_emulate_target_inquiry req_lun_id cmd) none false
    else if cmd.command = REQUEST_SENSE then
      completeResult (.ok [])
        (if req_lun_id ≠ 0 then some SCSI_SENSE_LUN_NOT_SUPPORTED else none) false
    else if cmd.command = TEST_UNIT_READY then
      completeResult (.ok []) none false
    else
      completeResult .fail (some SCSI_SENSE_INVALID_OPCODE) true
  else
    if cmd.command = REQUEST_SENSE then
      completeResult (.ok []) (some SCSI_SENSE_NO_SENSE) false
    else if cmd.command = WRITE_SAME_10 ∨ cmd.command = WRITE_SAME_16 ∨
            cmd.command = SYNCHRONIZE_CACHE then
      completeResult (.ok []) none false
    else if cmd.command = TEST_UNIT_READY then
      completeResult (if dev.has_disk_image then .ok [] else .fail) none false
    else if cmd.command = INQUIRY then
      completeResult (scsi_command_emulate_inquiry cmd dev) none false
    else if cmd.command = READ_CAPACITY_10 then
      completeResult (scsi_command_emulate_read_capacity_10 cmd dev) none false
    else if cmd.command = MODE_SENSE ∨ cmd.command = MODE_SENSE_10 then
      completeResult (scsi_command_emulate_mode_sense cmd dev) none false
    else if cmd.command = SERVICE_ACTION_IN_16 then
      completeResult (scsi_command_emulate_service_action_in_16 cmd dev) none false
    else
      completeResult .fail none true

/-! ## x86_64 standard-VM RAM layout (machine/src/standard_vm/x86_64/mod.rs) -/

/-- `MEM_LAYOUT`: MemBelow4g, PcieEcam, PcieMmio, Mmio, IoApic, LocalApic,
    MemAbove4g as `(base, size)` pairs. -/
def MEM_LAYOUT : List (Nat × Nat) :=
  [(0, 0xC0000000),
   (0xB0000000, 0x10000000),
   (0xC0000000, 0x30000000),
   (0xF0100000, 0x200),
   (0xFEC00000, 0x100000),
   (0xFEE00000, 0x100000),
   (0x100000000, 0x8000000000)]

/-- Index of `MemBelow4g` in `MEM_LAYOUT`. -/
def MemBelow4g : Nat := 0

/-- Index of `Mmio` in `MEM_LAYOUT`. -/
def MmioEntry : Nat := 3

/-- Index of `IoApic` in `MEM_LAYOUT`. -/
def IoApicEntry : Nat := 4

/-- Index of `LocalApic` in `MEM_LAYOUT`. -/
def LocalApicEntry : Nat := 5

/-- Index of `MemAbove4g` in `MEM_LAYOUT`. -/
def MemAbove4g : Nat := 6

/-- `StdMachine::arch_ram_ranges`: RAM below the PCIe gap, and the remainder
    above 4 GiB when `mem_size` spills past the gap start. -/
def arch_ram_ranges (mem_size : Nat) : List (Nat × Nat) :=
  let gap_start := (MEM_LAYOUT.getD MemBelow4g (0, 0)).1 +
    (MEM_LAYOUT.getD MemBelow4g (0, 0)).2
  let ranges := [(0, min gap_start mem_size)]
  if gap_start < mem_size then
    let gap_end := (MEM_LAYOUT.getD MemAbove4g (0, 0)).1
    ranges ++ [(gap_end, mem_size - gap_start)]
  else ranges

/-- Two `(base, size)` ranges intersect somewhere. -/
def rangesOverlap (a b : Nat × Nat) : Prop :=
  max a.1 b.1 < min (a.1 + a.2) (b.1 + b.2)

instance (a b : Nat × Nat) : Decidable (rangesOverlap a b) := by
  unfold rangesOverlap; infer_instance

/-! ## VM lifecycle (MachineLifecycle for StdMachine) -/

inductive KvmVmState where
  | Created
  | Running
  | Paused
  | Shutdown
deriving DecidableEq

inductive VmEvent where
  | STOP
  | RESUME
deriving DecidableEq

/-- Modelled from the spec: `MachineOps::vm_state_transfer` lives in
    machine/src/lib.rs, which is not part of the analysed sources.  Per the
    spec, a transition is a no-op returning failure unless the current state
    matches the expected source state, and there are no partial transitions. -/
def vm_state_transfer (current old new : KvmVmState) : KvmVmState × Bool :=
  if current = old then (new, true) else (current, false)

namespace StdMachine

/-- `StdMachine::pause`: try Running -> Paused; on success emit STOP. -/
def pause (s : KvmVmState) : KvmVmState × Bool × List VmEvent :=
  let r := vm_state_transfer s .Running .Paused
  if r.2 then (r.1, true, [.STOP]) else (r.1, false, [])

/-- `StdMachine::resume`: try Paused -> Running; on success emit RESUME. -/
def resume (s : KvmVmState) : KvmVmState × Bool × List VmEvent :=
  let r := vm_state_transfer s .Paused .Running
  if r.2 then (r.1, true, [.RESUME]) else (r.1, false, [])

end StdMachine

/-! ## Concrete fixtures used by counterexamples and witnesses -/

/-- A disk with the spec's scenario strings and a 2 TiB capacity
    (`sectors = 0x1_0000_0000`), target 0, lun 0. -/
def bigDisk : ScsiDevice :=
  { scsi_type := SCSI_TYPE_DISK,
    state := { serial := [0x31], device_id := [0x64, 0x69, 0x73, 0x6b],
               product := [0x53, 0x54, 0x52, 0x41, 0x54, 0x4f],
               vendor := [0x48, 0x55, 0x41, 0x57, 0x45, 0x49],
               version := [0x31, 0x2e, 0x30, 0x20],
               features := 0 },
    disk_sectors := 0x100000000,
    config := { target := 0, lun := 0 },
    has_disk_image := true }

/-- A READ_CAPACITY_10 command with PMI = 0 and lba = 0. -/
def rc10Cmd : ScsiCommand :=
  { buf := cdbOf [0x25, 0, 0, 0, 0, 0, 0, 0, 0, 0],
    command := READ_CAPACITY_10, len := 10, xfer := 8, lba := 0,
    mode := .ScsiXferFromDev }

/-- An INQUIRY command with EVPD = 1 and page code 0xB1. -/
def vpdB1Cmd : ScsiCommand :=
  { buf := cdbOf [0x12, 0x01, 0xb1, 0, 0x40, 0],
    command := INQUIRY, len := 6, xfer := 0x40, lba := 0,
    mode := .ScsiXferFromDev }

/-- A standard INQUIRY command with allocation length 5. -/
def inqShortCmd : ScsiCommand :=
  { buf := cdbOf [0x12, 0, 0, 0, 5, 0],
    command := INQUIRY, len := 6, xfer := 5, lba := 0,
    mode := .ScsiXferFromDev }

/-- A MODE_SENSE command with page control 3 (bits 6-7 of byte 2). -/
def modeSensePc3Cmd : ScsiCommand :=
  { buf := cdbOf [0x1a, 0, 0xc0, 0, 4, 0],
    command := MODE_SENSE, len := 6, xfer := 4, lba := 0,
    mode := .ScsiXferFromDev }

/-- A REPORT_LUNS command with allocation length 16. -/
def reportLunsCmd : ScsiCommand :=
  { buf := cdbOf [0xa0, 0, 0, 0, 0, 0, 0, 0, 0, 16, 0, 0],
    command := REPORT_LUNS, len := 12, xfer := 16, lba := 0,
    mode := .ScsiXferFromDev }

/-- A REQUEST_SENSE command. -/
def requestSenseCmd : ScsiCommand :=
  { buf := cdbOf [0x03, 0, 0, 0, 18, 0],
    command := REQUEST_SENSE, len := 6, xfer := 18, lba := 0,
    mode := .ScsiXferFromDev }

example : scsi_command_emulate_read_capacity_10 rc10Cmd bigDisk =
    .ok [0, 0, 0, 0, 0, 0, 2, 0] := by decide
example : scsi_command_emulate_vpd_page vpdB1Cmd bigDisk =
    .ok [0, 0xb1, 0, 60, 0, 0, 0, 0, 0] := by decide
example : scsi_command_emulate_inquiry inqShortCmd bigDisk = .crash := by decide
example : scsi_command_emulate_mode_sense modeSensePc3Cmd bigDisk = .fail := by decide
example : scsi_command_emulate_report_luns reportLunsCmd bigDisk
    [bigDisk] = .ok [0, 0, 0, 8, 0, 0, 0, 0, 0, 0, 0, 0, 0, 0, 0, 0] := by decide

/-- The 8-byte LUN entry encoding in the words of the specification: for
    `lun < 256` the entry is `[0x00, lun, 0, ..., 0]`, otherwise
    `[0x40 | (lun >> 8) & 0xFF, lun & 0xFF, 0, ..., 0]`.  Stated separately
    from `report_luns_step` so the REPORT LUNS theorem compares the code's
    fold against the spec's per-device encoding. -/
def reportLunsEntrySpec (lun : Nat) : List Nat :=
  if lun < 256 then [0x00, lun, 0, 0, 0, 0, 0, 0]
  else [0x40 ||| (lun >>> 8 &&& 0xff), lun &&& 0xff, 0, 0, 0, 0, 0, 0]

/-! ## Claim theorems -/

/-- C1: counterexample evaluation.  With a nonzero transfer-length field the
    READ_6 / WRITE_6 arm of `scsi_cdb_xfer` leaves the field unscaled: a
    field of 1 yields 1, not 1 × 512, while a field of 0 does yield
    256 × 512 bytes.  The claim that every bulk CDB multiplies the field by
    the 512-byte block size therefore fails on READ_6/WRITE_6. -/
theorem claim_read6_xfer_not_scaled :
    scsi_cdb_xfer (cdbOf [0x08, 0, 0, 0, 1]) = 1 ∧
    scsi_cdb_xfer (cdbOf [0x0a, 0, 0, 0, 1]) = 1 ∧
    scsi_cdb_xfer (cdbOf [0x08, 0, 0, 0, 0]) = 256 * 512 ∧
    ((1 : Int) * 512 ≠ 1) := by
  decide

/-- C2: counterexample evaluation.  `scsi_command_emulate_read_capacity_10`
    truncates `disk_sectors` with `as u32` before the (vacuous) `min` with
    `u32::MAX`: a disk of `0x1_0000_0000` sectors reports BE32(0) as the
    returned logical block address, not BE32(min(sectors, u32::MAX)) =
    BE32(0xFFFF_FFFF) as the claim states. -/
theorem claim_read_capacity_truncates :
    scsi_command_emulate_read_capacity_10 rc10Cmd bigDisk =
      .ok (be32 0 ++ be32 512) ∧
    be32 0 ≠ be32 (min bigDisk.disk_sectors (2 ^ 32 - 1)) := by
  decide

/-- C3: counterexample.  Opcode 0x81 has group code 4 (a valid group), yet
    with bytes 10..13 all 0xFF `scsi_cdb_xfer` reads the field `as i32` and
    returns -1, refuting the claim that the transfer length is non-negative
    for every CDB with a valid group code. -/
theorem claim_cdb_xfer_negative_cex :
    cb (cdbOf [0x81, 0, 0, 0, 0, 0, 0, 0, 0, 0, 0xff, 0xff, 0xff, 0xff, 0, 0]) 0 >>> 5 = 4 ∧
    scsi_cdb_xfer (cdbOf [0x81, 0, 0, 0, 0, 0, 0, 0, 0, 0, 0xff, 0xff, 0xff, 0xff, 0, 0]) = -1 ∧
    ¬(0 : Int) ≤
      scsi_cdb_xfer (cdbOf [0x81, 0, 0, 0, 0, 0, 0, 0, 0, 0, 0xff, 0xff, 0xff, 0xff, 0, 0]) := by
  decide

/-- C3 (amended): for group codes 0, 1, 2, 4 and 5 `scsi_cdb_length` returns
    6, 10, 10, 16 and 12 respectively; for group codes 3, 6 and 7 the parse
    fails; and whenever `scsi_bus_parse_req_cdb` does return a command, the
    transfer length and LBA of the CDB are non-negative (negative values are
    rejected by the parse, not impossible). -/
theorem claim_cdb_table_amended (cdb : Cdb) :
    (cb cdb 0 >>> 5 = 0 → scsi_cdb_length cdb = 6) ∧
    (cb cdb 0 >>> 5 = 1 ∨ cb cdb 0 >>> 5 = 2 → scsi_cdb_length cdb = 10) ∧
    (cb cdb 0 >>> 5 = 4 → scsi_cdb_length cdb = 16) ∧
    (cb cdb 0 >>> 5 = 5 → scsi_cdb_length cdb = 12) ∧
    (cb cdb 0 >>> 5 = 3 ∨ cb cdb 0 >>> 5 = 6 ∨ cb cdb 0 >>> 5 = 7 →
      scsi_bus_parse_req_cdb cdb = none) ∧
    (∀ c, scsi_bus_parse_req_cdb cdb = some c →
      0 ≤ scsi_cdb_xfer cdb ∧ 0 ≤ scsi_cdb_lba cdb) := by
  refine ⟨fun h => by simp [scsi_cdb_length, h], ?_, ?_, ?_, ?_, ?_⟩
  · rintro (h | h) <;> simp [scsi_cdb_length, h]
  · intro h; simp [scsi_cdb_length, h]
  · intro h; simp [scsi_cdb_length, h]
  · rintro (h | h | h) <;> simp [scsi_bus_parse_req_cdb, scsi_cdb_length, h]
  · intro c hc
    simp only [scsi_bus_parse_req_cdb] at hc
    split_ifs at hc with h1 h2 h3 <;>
      first
        | exact Option.noConfusion hc
        | exact ⟨le_of_not_lt h2, le_of_not_lt h3⟩

/-- C3 (amended): witness at a concrete CDB of each kind. -/
theorem claim_cdb_table_amended_witness :
    scsi_cdb_length (cdbOf [0x08, 0, 0, 0, 1]) = 6 ∧
    scsi_bus_parse_req_cdb (cdbOf [0x61]) = none :=
  ⟨(claim_cdb_table_amended (cdbOf [0x08, 0, 0, 0, 1])).1 (by decide),
   (claim_cdb_table_amended (cdbOf [0x61])).2.2.2.2.1 (Or.inl (by decide))⟩

/-- C7: counterexample evaluation.  The 0xB1 (Block Device Characteristics)
    VPD page appends five payload bytes but never resizes the buffer to the
    recorded `buflen = 0x40`: INQUIRY EVPD=1 page 0xB1 returns a 9-byte
    buffer whose byte 3 still advertises a 60-byte page, not the 64-byte
    buffer the claim states. -/
theorem claim_vpd_b1_short_buffer :
    scsi_command_emulate_inquiry vpdB1Cmd bigDisk =
      .ok [0, 0xb1, 0, 60, 0, 0, 0, 0, 0] ∧
    ([0, 0xb1, 0, 60, 0, 0, 0, 0, 0] : List Nat).length = 9 ∧
    (9 : Nat) ≠ 64 := by
  decide

/-- C9: `arch_ram_ranges` produces `[0, mem_size)` when the memory fits below
    the PCIe gap at 0xC000_0000, and otherwise that low range plus the
    remainder starting at 4 GiB; the range sizes always sum to `mem_size`,
    and no produced range overlaps the Mmio, IoApic or LocalApic windows of
    `MEM_LAYOUT`. -/
theorem claim_arch_ram_ranges (mem_size : Nat) :
    (mem_size ≤ 0xC0000000 → arch_ram_ranges mem_size = [(0, mem_size)]) ∧
    (0xC0000000 < mem_size →
      arch_ram_ranges mem_size =
        [(0, 0xC0000000), (0x100000000, mem_size - 0xC0000000)]) ∧
    ((arch_ram_ranges mem_size).map Prod.snd).sum = mem_size ∧
    (∀ r ∈ arch_ram_ranges mem_size,
      ¬rangesOverlap r (MEM_LAYOUT.getD MmioEntry (0, 0)) ∧
      ¬rangesOverlap r (MEM_LAYOUT.getD IoApicEntry (0, 0)) ∧
      ¬rangesOverlap r (MEM_LAYOUT.getD LocalApicEntry (0, 0))) := by
  have hsum2 : ∀ a b c d : Nat,
      (([(a, b), (c, d)] : List (Nat × Nat)).map Prod.snd).sum = b + d := by
    intro a b c d; simp
  have hsum1 : ∀ a b : Nat,
      (([(a, b)] : List (Nat × Nat)).map Prod.snd).sum = b := by
    intro a b; simp
  have hm : MEM_LAYOUT.getD MmioEntry (0, 0) = (0xF0100000, 0x200) := rfl
  have hio : MEM_LAYOUT.getD IoApicEntry (0, 0) = (0xFEC00000, 0x100000) := rfl
  have hla : MEM_LAYOUT.getD LocalApicEntry (0, 0) = (0xFEE00000, 0x100000) := rfl
  by_cases h : 0xC0000000 < mem_size
  · have heq : arch_ram_ranges mem_size =
        [(0, 0xC0000000), (0x100000000, mem_size - 0xC0000000)] := by
      simp [arch_ram_ranges, MEM_LAYOUT, MemBelow4g, MemAbove4g, h,
        Nat.min_eq_left (le_of_lt h)]
    refine ⟨fun hle => absurd h (by omega), fun _ => heq, ?_, ?_⟩
    · rw [heq, hsum2]
      omega
    · intro r hr
      rw [heq] at hr
      simp only [List.mem_cons, List.not_mem_nil, or_false] at hr
      rcases hr with rfl | rfl <;>
        refine ⟨?_, ?_, ?_⟩ <;>
          simp only [hm, hio, hla] <;> simp [rangesOverlap] <;> omega
  · have hle : mem_size ≤ 0xC0000000 := by omega
    have heq : arch_ram_ranges mem_size = [(0, mem_size)] := by
      simp [arch_ram_ranges, MEM_LAYOUT, MemBelow4g, MemAbove4g, h,
        Nat.min_eq_right hle]
    refine ⟨fun _ => heq, fun hgt => absurd hgt h, ?_, ?_⟩
    · rw [heq, hsum1]
    · intro r hr
      rw [heq] at hr
      simp only [List.mem_cons, List.not_mem_nil, or_false] at hr
      subst hr
      refine ⟨?_, ?_, ?_⟩ <;>
        simp only [hm, hio, hla] <;> simp [rangesOverlap] <;> omega

/-- C9: witness at 4 GiB of configured memory. -/
theorem claim_arch_ram_ranges_witness :
    arch_ram_ranges 0x100000000 =
      [(0, 0xC0000000), (0x100000000, 0x40000000)] :=
  (claim_arch_ram_ranges 0x100000000).2.1 (by decide)

/-- C10: `pause` succeeds (returning true and emitting STOP, with the state
    becoming Paused) exactly when the current state is Running; from any
    other state it returns false, emits nothing and leaves the state
    unchanged; symmetrically `resume` is a silent no-op unless the current
    state is Paused. -/
theorem claim_lifecycle_pause_resume (s : KvmVmState) :
    ((StdMachine.pause s).2.1 = true ↔ s = .Running) ∧
    (s = .Running → StdMachine.pause s = (.Paused, true, [.STOP])) ∧
    (s ≠ .Running → StdMachine.pause s = (s, false, [])) ∧
    (s ≠ .Paused → StdMachine.resume s = (s, false, [])) := by
  cases s <;> exact ⟨by decide, by decide, by decide, by decide⟩

/-- C10: witness that pausing a freshly created (not yet running) machine is
    a silent no-op. -/
theorem claim_lifecycle_pause_resume_witness :
    StdMachine.pause .Created = (.Created, false, []) :=
  (claim_lifecycle_pause_resume .Created).2.2.1 (by decide)

/-! ## REPORT LUNS lemmas and claim -/

theorem report_luns_foldl_append (target : Nat) (bus : List ScsiDevice) :
    ∀ acc : List Nat,
      bus.foldl (report_luns_step target) acc =
        acc ++ bus.foldl (report_luns_step target) [] := by
  induction bus with
  | nil => intro acc; simp
  | cons d bus ih =>
      intro acc
      simp only [List.foldl_cons]
      rw [ih (report_luns_step target acc d), ih (report_luns_step target [] d)]
      unfold report_luns_step
      by_cases h : d.config.target ≠ target <;> simp [h]

theorem report_luns_entry_eq (lun : Nat) :
    (if lun < 256 then [0, lun % 256]
     else [0x40 ||| (lun >>> 8 &&& 0xff), lun &&& 0xff]) ++ List.replicate 6 0 =
      reportLunsEntrySpec lun := by
  unfold reportLunsEntrySpec
  by_cases h : lun < 256
  · rw [if_pos h, if_pos h, Nat.mod_eq_of_lt h]
    rfl
  · rw [if_neg h, if_neg h]
    rfl

theorem report_luns_entries (target : Nat) (bus : List ScsiDevice) :
    bus.foldl (report_luns_step target) [] =
      ((bus.filter fun d => d.config.target == target).map
        (fun d => reportLunsEntrySpec d.config.lun)).join := by
  induction bus with
  | nil => rfl
  | cons d bus ih =>
      rw [List.foldl_cons, report_luns_foldl_append, ih]
      by_cases h : d.config.target = target
      · rw [List.filter_cons_of_pos (by simpa using h)]
        simp only [List.map_cons, List.join_cons]
        unfold report_luns_step
        rw [if_neg (by simpa using h), List.nil_append, report_luns_entry_eq]
      · rw [List.filter_cons_of_neg (by simpa using h)]
        unfold report_luns_step
        rw [if_pos (by simpa using h)]
        simp

theorem reportLunsEntrySpec_length (lun : Nat) :
    (reportLunsEntrySpec lun).length = 8 := by
  unfold reportLunsEntrySpec
  split <;> rfl

theorem report_luns_entries_length (xs : List ScsiDevice) :
    ((xs.map fun d => reportLunsEntrySpec d.config.lun).join).length = 8 * xs.length := by
  induction xs with
  | nil => rfl
  | cons d xs ih =>
      simp only [List.map_cons, List.join_cons, List.length_append, ih,
        reportLunsEntrySpec_length, List.length_cons]
      ring

/-- C5: REPORT LUNS fails when the allocation length is under 16 or the
    SELECT REPORT byte exceeds 2; otherwise it returns the 8-byte header with
    the byte count of the LUN list written big-endian in bytes 0..3, followed
    by one 8-byte entry per device on the addressed device's target, each
    entry encoded as in `reportLunsEntrySpec`. -/
theorem claim_report_luns_spec (cmd : ScsiCommand) (dev : ScsiDevice)
    (bus : List ScsiDevice) :
    ((cmd.xfer < 16 ∨ 2 < cb cmd.buf 2) →
      scsi_command_emulate_report_luns cmd dev bus = .fail) ∧
    (16 ≤ cmd.xfer → cb cmd.buf 2 ≤ 2 →
      scsi_command_emulate_report_luns cmd dev bus =
        .ok (be32 (8 * (bus.filter fun d => d.config.target == dev.config.target).length)
          ++ [0, 0, 0, 0]
          ++ ((bus.filter fun d => d.config.target == dev.config.target).map
                (fun d => reportLunsEntrySpec d.config.lun)).join)) := by
  constructor
  · rintro (h | h)
    · unfold scsi_command_emulate_report_luns
      rw [if_pos h]
    · unfold scsi_command_emulate_report_luns
      rcases Nat.lt_or_ge cmd.xfer 16 with h16 | h16
      · rw [if_pos h16]
      · rw [if_neg (by omega), if_pos h]
  · intro h16 h2
    unfold scsi_command_emulate_report_luns
    rw [if_neg (by omega), if_neg (by omega)]
    have hfold : bus.foldl (report_luns_step dev.config.target) (List.replicate 8 0) =
        List.replicate 8 0 ++
          ((bus.filter fun d => d.config.target == dev.config.target).map
            (fun d => reportLunsEntrySpec d.config.lun)).join := by
      rw [report_luns_foldl_append, report_luns_entries]
    rw [hfold]
    dsimp only
    have hlen2 : ((List.replicate 8 0 : List Nat) ++
        ((bus.filter fun d => d.config.target == dev.config.target).map
          (fun d : ScsiDevice => reportLunsEntrySpec d.config.lun)).join).length - 8 =
        8 * (bus.filter fun d => d.config.target == dev.config.target).length := by
      rw [List.length_append, List.length_replicate, report_luns_entries_length]
      omega
    rw [hlen2]
    have hdrop : ((List.replicate 8 0 : List Nat) ++
        ((bus.filter fun d => d.config.target == dev.config.target).map
          (fun d : ScsiDevice => reportLunsEntrySpec d.config.lun)).join).drop 4 =
        [0, 0, 0, 0] ++
          ((bus.filter fun d => d.config.target == dev.config.target).map
            (fun d : ScsiDevice => reportLunsEntrySpec d.config.lun)).join := by
      rw [show (List.replicate 8 0 : List Nat) = [0, 0, 0, 0] ++ [0, 0, 0, 0] from rfl,
        List.append_assoc, List.drop_append_of_le_length (by simp)]
      rfl
    rw [hdrop, ← List.append_assoc]

/-- C5: witness: allocation length 16 on a bus with no device on the target
    yields the bare 8-byte header with a zero list length. -/
theorem claim_report_luns_spec_witness :
    scsi_command_emulate_report_luns reportLunsCmd bigDisk [] =
      .ok [0, 0, 0, 0, 0, 0, 0, 0] := by
  have h := (claim_report_luns_spec reportLunsCmd bigDisk []).2 (by decide) (by decide)
  simpa using h

/-! ## Target-request dispatch (C4) and MODE SENSE page control (C6) -/

/-- C4: when the resolved lun differs from the requested lun (a target
    request), only REPORT_LUNS, INQUIRY, REQUEST_SENSE and TEST_UNIT_READY
    can complete with GOOD status; REQUEST_SENSE always completes GOOD and
    carries LUN_NOT_SUPPORTED sense exactly when the requested lun is
    non-zero; every other opcode completes CHECK_CONDITION with
    INVALID_OPCODE sense (key 0x05, asc 0x20, ascq 0x00). -/
theorem claim_target_request_dispatch (cmd : ScsiCommand) (dev : ScsiDevice)
    (bus : List ScsiDevice) (req_lun_id found_lun_id : Nat)
    (hneq : req_lun_id ≠ found_lun_id) :
    (∀ comp, emulate_execute cmd dev bus req_lun_id found_lun_id = some comp →
      comp.status = GOOD →
      (cmd.command = REPORT_LUNS ∨ cmd.command = INQUIRY ∨
       cmd.command = REQUEST_SENSE ∨ cmd.command = TEST_UNIT_READY)) ∧
    (cmd.command = REQUEST_SENSE →
      emulate_execute cmd dev bus req_lun_id found_lun_id =
        some ⟨GOOD,
          if req_lun_id ≠ 0 then some SCSI_SENSE_LUN_NOT_SUPPORTED else none,
          []⟩) ∧
    (¬(cmd.command = REPORT_LUNS ∨ cmd.command = INQUIRY ∨
       cmd.command = REQUEST_SENSE ∨ cmd.command = TEST_UNIT_READY) →
      emulate_execute cmd dev bus req_lun_id found_lun_id =
        some ⟨CHECK_CONDITION, some SCSI_SENSE_INVALID_OPCODE, []⟩) := by
  have houter : req_lun_id ≠ found_lun_id ∨ cmd.command = REPORT_LUNS := Or.inl hneq
  refine ⟨?_, ?_, ?_⟩
  · intro comp hcomp hstatus
    by_cases h1 : cmd.command = REPORT_LUNS
    · exact Or.inl h1
    by_cases h2 : cmd.command = INQUIRY
    · exact Or.inr (Or.inl h2)
    by_cases h3 : cmd.command = REQUEST_SENSE
    · exact Or.inr (Or.inr (Or.inl h3))
    by_cases h4 : cmd.command = TEST_UNIT_READY
    · exact Or.inr (Or.inr (Or.inr h4))
    exfalso
    rw [emulate_execute, if_pos houter, if_neg h1, if_neg h2, if_neg h3,
      if_neg h4] at hcomp
    simp only [completeResult, if_pos] at hcomp
    injection hcomp with h
    rw [← h] at hstatus
    simp [GOOD, CHECK_CONDITION] at hstatus
  · intro h3
    have h1 : cmd.command ≠ REPORT_LUNS := by rw [h3]; decide
    have h2 : cmd.command ≠ INQUIRY := by rw [h3]; decide
    rw [emulate_execute, if_pos houter, if_neg h1, if_neg h2, if_pos h3]
    simp [completeResult]
  · intro hnot
    have h1 : cmd.command ≠ REPORT_LUNS := fun h => hnot (Or.inl h)
    have h2 : cmd.command ≠ INQUIRY := fun h => hnot (Or.inr (Or.inl h))
    have h3 : cmd.command ≠ REQUEST_SENSE := fun h => hnot (Or.inr (Or.inr (Or.inl h)))
    have h4 : cmd.command ≠ TEST_UNIT_READY := fun h => hnot (Or.inr (Or.inr (Or.inr h)))
    rw [emulate_execute, if_pos houter, if_neg h1, if_neg h2, if_neg h3, if_neg h4]
    simp [completeResult]

/-- C4: witness: a REQUEST_SENSE addressed to the non-existent lun 1,
    resolved to the lun-0 device, completes GOOD with LUN_NOT_SUPPORTED. -/
theorem claim_target_request_dispatch_witness :
    emulate_execute requestSenseCmd bigDisk [] 1 0 =
      some ⟨GOOD, some SCSI_SENSE_LUN_NOT_SUPPORTED, []⟩ := by
  have h := (claim_target_request_dispatch requestSenseCmd bigDisk [] 1 0
    (by decide)).2.1 (by decide)
  exact h.trans (by decide)

/-- C6: counterexample.  A MODE_SENSE with page control 3 completes with
    CHECK_CONDITION but the sense installed is INVALID_FIELD (0x05/0x24/0x00),
    because every mode-sense failure is routed through the generic
    emulation-error path; SAVING_PARAMS_NOT_SUPPORTED (0x05/0x39/0x00) is
    never produced, refuting the claim at this input. -/
theorem claim_mode_sense_pc3_sense_cex :
    emulate_execute modeSensePc3Cmd bigDisk [] 0 0 =
      some ⟨CHECK_CONDITION, some SCSI_SENSE_INVALID_FIELD, []⟩ ∧
    SCSI_SENSE_INVALID_FIELD ≠ SCSI_SENSE_SAVING_PARAMS_NOT_SUPPORTED := by
  decide

/-- C6 (amended): every MODE_SENSE or MODE_SENSE_10 with page_control = 3 on
    the device's own lun completes with status CHECK_CONDITION and sense
    INVALID_FIELD (key 0x05, asc 0x24, ascq 0x00) - not
    SAVING_PARAMS_NOT_SUPPORTED, which the code never installs. -/
theorem claim_mode_sense_pc3_amended (cmd : ScsiCommand) (dev : ScsiDevice)
    (bus : List ScsiDevice) (lun : Nat)
    (hcmd : cmd.command = MODE_SENSE ∨ cmd.command = MODE_SENSE_10)
    (hpc : (cb cmd.buf 2 &&& 0xc0) >>> 6 = 3) :
    emulate_execute cmd dev bus lun lun =
      some ⟨CHECK_CONDITION, some SCSI_SENSE_INVALID_FIELD, []⟩ := by
  have hms : scsi_command_emulate_mode_sense cmd dev = .fail := by
    unfold scsi_command_emulate_mode_sense
    dsimp only
    rw [if_pos hpc]
  have h1 : cmd.command ≠ REQUEST_SENSE := by
    rcases hcmd with h | h <;> rw [h] <;> decide
  have h2 : ¬(cmd.command = WRITE_SAME_10 ∨ cmd.command = WRITE_SAME_16 ∨
      cmd.command = SYNCHRONIZE_CACHE) := by
    rcases hcmd with h | h <;> rw [h] <;> decide
  have h3 : cmd.command ≠ TEST_UNIT_READY := by
    rcases hcmd with h | h <;> rw [h] <;> decide
  have h4 : cmd.command ≠ INQUIRY := by
    rcases hcmd with h | h <;> rw [h] <;> decide
  have h5 : cmd.command ≠ READ_CAPACITY_10 := by
    rcases hcmd with h | h <;> rw [h] <;> decide
  have houter : ¬(lun ≠ lun ∨ cmd.command = REPORT_LUNS) := by
    rcases hcmd with h | h <;> rw [h] <;> simp <;> decide
  rw [emulate_execute, if_neg houter, if_neg h1, if_neg h2, if_neg h3,
    if_neg h4, if_neg h5, if_pos hcmd, hms]
  simp [completeResult]

/-- C6 (amended): witness at the concrete page-control-3 MODE_SENSE. -/
theorem claim_mode_sense_pc3_amended_witness :
    emulate_execute modeSensePc3Cmd bigDisk [] 5 5 =
      some ⟨CHECK_CONDITION, some SCSI_SENSE_INVALID_FIELD, []⟩ :=
  claim_mode_sense_pc3_amended modeSensePc3Cmd bigDisk [] 5
    (Or.inl (by decide)) (by decide)

/-! ## Standard INQUIRY out-of-bounds behaviour (C8) -/

theorem setByte_eq_some {buf : List Nat} {i v : Nat} {out : List Nat} :
    setByte buf i v = some out ↔ i < buf.length ∧ out = buf.set i v := by
  unfold setByte
  split <;> simp_all [eq_comm]

theorem copyRange_eq_some {buf src : List Nat} {s l : Nat} {out : List Nat} :
    copyRange buf s l src = some out ↔
      (s + l ≤ buf.length ∧ src.length = l) ∧
        out = buf.take s ++ src ++ buf.drop (s + l) := by
  unfold copyRange
  split_ifs with h
  · constructor
    · intro he
      injection he with he
      exact ⟨h, he.symm⟩
    · rintro ⟨-, rfl⟩
      rfl
  · constructor
    · intro he
      exact absurd he (by simp)
    · rintro ⟨hc, -⟩
      exact absurd hc h

theorem bind_setByte_ne_none (n i v : Nat) (b : List Nat)
    (k : List Nat → Option (List Nat)) (hb : b.length = n) (hi : i < n)
    (hk : ∀ c, c.length = n → k c ≠ none) :
    (setByte b i v).bind k ≠ none := by
  have : setByte b i v = some (b.set i v) := setByte_eq_some.mpr ⟨by omega, rfl⟩
  rw [this, Option.some_bind]
  exact hk _ (by simp [hb])

theorem bind_copyRange_ne_none (n s l : Nat) (b src : List Nat)
    (k : List Nat → Option (List Nat)) (hb : b.length = n) (hcond : s + l ≤ n)
    (hsrc : src.length = l)
    (hk : ∀ c, c.length = n → k c ≠ none) :
    (copyRange b s l src).bind k ≠ none := by
  have : copyRange b s l src = some (b.take s ++ src ++ b.drop (s + l)) :=
    copyRange_eq_some.mpr ⟨⟨by omega, hsrc⟩, rfl⟩
  rw [this, Option.some_bind]
  refine hk _ ?_
  simp [hsrc]
  omega

/-- The standard INQUIRY body panics (an out-of-bounds write) exactly when
    the allocation length is under 36, for a device whose product, vendor and
    version strings fit their fields and whose version is the full 4 bytes. -/
theorem inquiry_std_none_iff (cmd : ScsiCommand) (dev : ScsiDevice)
    (hp : dev.state.product.length ≤ 16) (hv : dev.state.vendor.length ≤ 8)
    (hver : dev.state.version.length = 4) :
    inquiry_std cmd dev = none ↔ cmd.xfer < 36 := by
  have hL : min cmd.xfer SCSI_MAX_INQUIRY_LEN = min cmd.xfer 256 := by
    unfold SCSI_MAX_INQUIRY_LEN
    rfl
  constructor
  · intro hnone
    by_contra hge
    push_neg at hge
    revert hnone
    rw [inquiry_std]
    simp only [Option.bind_eq_bind, Option.pure_def]
    refine bind_setByte_ne_none (min cmd.xfer 256) _ _ _ _ (by simp [hL]) (by omega)
      fun c1 hc1 => ?_
    refine bind_setByte_ne_none (min cmd.xfer 256) _ _ _ _ hc1 (by omega)
      fun c2 hc2 => ?_
    refine bind_copyRange_ne_none (min cmd.xfer 256) _ _ _ _ _ hc2 (by
        unfold SCSI_INQUIRY_PRODUCT_MAX_LEN; omega) (by
        unfold SCSI_INQUIRY_PRODUCT_MAX_LEN; omega)
      fun c3 hc3 => ?_
    refine bind_copyRange_ne_none (min cmd.xfer 256) _ _ _ _ _ hc3 (by
        unfold SCSI_INQUIRY_VENDOR_MAX_LEN; omega) (by
        unfold SCSI_INQUIRY_VENDOR_MAX_LEN; omega)
      fun c4 hc4 => ?_
    refine bind_copyRange_ne_none (min cmd.xfer 256) _ _ _ _ _ hc4 (by
        unfold SCSI_INQUIRY_VERSION_MAX_LEN; omega) (by
        unfold SCSI_INQUIRY_VERSION_MAX_LEN; omega)
      fun c5 hc5 => ?_
    refine bind_setByte_ne_none (min cmd.xfer 256) _ _ _ _ hc5 (by omega)
      fun c6 hc6 => ?_
    refine bind_setByte_ne_none (min cmd.xfer 256) _ _ _ _ hc6 (by omega)
      fun c7 hc7 => ?_
    refine bind_setByte_ne_none (min cmd.xfer 256) _ _ _ _ hc7 (by omega)
      fun c8 hc8 => ?_
    refine bind_setByte_ne_none (min cmd.xfer 256) _ _ _ _ hc8 (by omega)
      fun c9 hc9 => ?_
    simp
  · intro hlt
    cases heq : inquiry_std cmd dev with
    | none => rfl
    | some out =>
        exfalso
        rw [inquiry_std] at heq
        simp only [Option.bind_eq_bind, Option.pure_def, Option.bind_eq_some] at heq
        obtain ⟨b1, hb1, b2, hb2, b3, hb3, b4, hb4, b5, hb5, -⟩ := heq
        rw [setByte_eq_some] at hb1 hb2
        rw [copyRange_eq_some] at hb3 hb4 hb5
        obtain ⟨-, he1⟩ := hb1
        obtain ⟨-, he2⟩ := hb2
        obtain ⟨⟨hc3, hc3s⟩, he3⟩ := hb3
        obtain ⟨⟨hc4, hc4s⟩, he4⟩ := hb4
        obtain ⟨⟨hc5, -⟩, -⟩ := hb5
        have l1 : b1.length = min cmd.xfer 256 := by
          rw [he1]
          simp [hL]
        have l2 : b2.length = min cmd.xfer 256 := by
          rw [he2]
          simp [l1]
        unfold SCSI_INQUIRY_PRODUCT_MAX_LEN at hc3 hc3s
        unfold SCSI_INQUIRY_VENDOR_MAX_LEN at hc4 hc4s
        have l3 : b3.length = min cmd.xfer 256 := by
          rw [he3]
          simp only [List.length_append, List.length_take, List.length_drop,
            SCSI_INQUIRY_PRODUCT_MAX_LEN]
          omega
        have l4 : b4.length = min cmd.xfer 256 := by
          rw [he4]
          simp only [List.length_append, List.length_take, List.length_drop,
            SCSI_INQUIRY_VENDOR_MAX_LEN]
          omega
        rw [l4] at hc5
        unfold SCSI_INQUIRY_VERSION_MAX_LEN at hc5
        omega

/-- C8: the standard INQUIRY (EVPD = 0, page code 0) sizes its buffer as
    min(xfer, 256) yet writes the header bytes and the vendor, product and
    version strings at fixed offsets up to 36: for a device with a full
    4-byte version string it returns without an out-of-bounds access exactly
    when xfer is at least 36, and panics (producing no SCSI response) for
    every smaller xfer, such as xfer = 5. -/
theorem claim_inquiry_oob (cmd : ScsiCommand) (dev : ScsiDevice)
    (hevpd : cb cmd.buf 1 ≠ 0x1) (hpage : cb cmd.buf 2 = 0)
    (hp : dev.state.product.length ≤ 16) (hv : dev.state.vendor.length ≤ 8)
    (hver : dev.state.version.length = 4) :
    scsi_command_emulate_inquiry cmd dev = .crash ↔ cmd.xfer < 36 := by
  unfold scsi_command_emulate_inquiry
  rw [if_neg hevpd, if_neg (by simp [hpage])]
  rw [← inquiry_std_none_iff cmd dev hp hv hver]
  cases h : inquiry_std cmd dev <;> simp [h]

/-- C8: witness: the concrete INQUIRY with allocation length 5 panics. -/
theorem claim_inquiry_oob_witness :
    scsi_command_emulate_inquiry inqShortCmd bigDisk = .crash :=
  (claim_inquiry_oob inqShortCmd bigDisk (by decide) (by decide) (by decide)
    (by decide) (by decide)).mpr (by decide)
